import Mathlib

/-!
Verification of the crop water-demand core of the evapotranspiration
calculator (src/services/weather-api.ts).

The numeric type of the source (JS `number`) is modelled by `ℚ` so that all
definitions stay computable; the interval-integral comparison additionally
uses a real-valued mirror `kcCurve` of `getKcForDay`.
-/

namespace EvapoCalc

/-- Shallow embedding of the `growthStages` record of `CropData`
(src/services/weather-api.ts, lines 206-211). -/
structure GrowthStages where
  initial : ℚ
  development : ℚ
  midSeason : ℚ
  lateSeason : ℚ
deriving DecidableEq

/-- Shallow embedding of the `CropData` interface
(src/services/weather-api.ts, lines 196-212). -/
structure CropData where
  id : String
  name : String
  namePortuguese : String
  category : String
  description : String
  kcInitial : ℚ
  kcMid : ℚ
  kcEnd : ℚ
  maxHeight : ℚ
  growthStages : GrowthStages
deriving DecidableEq

/-- The `CROP_CATEGORIES` constant object: eight named string labels
(src/services/weather-api.ts, lines 214-223). -/
structure CropCategories where
  GRAINS : String
  LEGUMES : String
  FIBER : String
  SUGAR : String
  BEVERAGES : String
  FRUITS : String
  VEGETABLES : String
  OILSEEDS : String
deriving DecidableEq

def CROP_CATEGORIES : CropCategories where
  GRAINS := "Grains & Cereals"
  LEGUMES := "Legumes & Pulses"
  FIBER := "Fiber Crops"
  SUGAR := "Sugar Crops"
  BEVERAGES := "Beverage Crops"
  FRUITS := "Fruits"
  VEGETABLES := "Vegetables"
  OILSEEDS := "Oilseeds"

/-- `Object.values(CROP_CATEGORIES)`: the field values in declaration
order. -/
def cropCategoriesValues (c : CropCategories) : List String :=
  [c.GRAINS, c.LEGUMES, c.FIBER, c.SUGAR, c.BEVERAGES, c.FRUITS,
   c.VEGETABLES, c.OILSEEDS]

/-- The fixed crop catalog `BRAZILIAN_CROPS`
(src/services/weather-api.ts, lines 229-549). -/
def BRAZILIAN_CROPS : List CropData :=
  [{ id := "corn", name := "Corn (Maize)", namePortuguese := "Milho",
     category := CROP_CATEGORIES.GRAINS,
     description := "Field corn for grain production",
     kcInitial := 0.3, kcMid := 1.2, kcEnd := 0.35, maxHeight := 2.0,
     growthStages :=
       { initial := 20, development := 35, midSeason := 40, lateSeason := 30 } },
   { id := "rice", name := "Rice", namePortuguese := "Arroz",
     category := CROP_CATEGORIES.GRAINS,
     description := "Paddy rice cultivation",
     kcInitial := 1.05, kcMid := 1.2, kcEnd := 0.9, maxHeight := 1.0,
     growthStages :=
       { initial := 30, development := 30, midSeason := 60, lateSeason := 30 } },
   { id := "wheat", name := "Wheat", namePortuguese := "Trigo",
     category := CROP_CATEGORIES.GRAINS,
     description := "Spring wheat for grain",
     kcInitial := 0.3, kcMid := 1.15, kcEnd := 0.25, maxHeight := 1.0,
     growthStages :=
       { initial := 15, development := 30, midSeason := 65, lateSeason := 40 } },
   { id := "sorghum", name := "Sorghum", namePortuguese := "Sorgo",
     category := CROP_CATEGORIES.GRAINS,
     description := "Grain sorghum",
     kcInitial := 0.3, kcMid := 1.0, kcEnd := 0.55, maxHeight := 1.2,
     growthStages :=
       { initial := 20, development := 35, midSeason := 40, lateSeason := 30 } },
   { id := "soybeans", name := "Soybeans", namePortuguese := "Soja",
     category := CROP_CATEGORIES.OILSEEDS,
     description := "Most important Brazilian oilseed crop",
     kcInitial := 0.4, kcMid := 1.15, kcEnd := 0.5, maxHeight := 0.8,
     growthStages :=
       { initial := 15, development := 25, midSeason := 50, lateSeason := 30 } },
   { id := "beans-dry", name := "Beans (Dry)", namePortuguese := "Feijão",
     category := CROP_CATEGORIES.LEGUMES,
     description := "Common dry beans",
     kcInitial := 0.4, kcMid := 1.15, kcEnd := 0.35, maxHeight := 0.4,
     growthStages :=
       { initial := 20, development := 30, midSeason := 40, lateSeason := 20 } },
   { id := "peanuts", name := "Peanuts (Groundnuts)", namePortuguese := "Amendoim",
     category := CROP_CATEGORIES.OILSEEDS,
     description := "Groundnut cultivation",
     kcInitial := 0.4, kcMid := 1.15, kcEnd := 0.6, maxHeight := 0.4,
     growthStages :=
       { initial := 25, development := 35, midSeason := 45, lateSeason := 25 } },
   { id := "cotton", name := "Cotton", namePortuguese := "Algodão",
     category := CROP_CATEGORIES.FIBER,
     description := "Cotton for fiber production",
     kcInitial := 0.35, kcMid := 1.15, kcEnd := 0.5, maxHeight := 1.5,
     growthStages :=
       { initial := 30, development := 50, midSeason := 60, lateSeason := 55 } },
   { id := "sugarcane-virgin", name := "Sugarcane (Virgin)",
     namePortuguese := "Cana-de-açúcar (Virgem)",
     category := CROP_CATEGORIES.SUGAR,
     description := "First year sugarcane planting",
     kcInitial := 0.4, kcMid := 1.25, kcEnd := 0.75, maxHeight := 3.0,
     growthStages :=
       { initial := 35, development := 60, midSeason := 190, lateSeason := 120 } },
   { id := "sugarcane-ratoon", name := "Sugarcane (Ratoon)",
     namePortuguese := "Cana-de-açúcar (Soca)",
     category := CROP_CATEGORIES.SUGAR,
     description := "Regrowth sugarcane after harvest",
     kcInitial := 0.4, kcMid := 1.25, kcEnd := 0.75, maxHeight := 3.0,
     growthStages :=
       { initial := 25, development := 35, midSeason := 180, lateSeason := 150 } },
   { id := "coffee", name := "Coffee", namePortuguese := "Café",
     category := CROP_CATEGORIES.BEVERAGES,
     description := "Coffee plantation (bare ground)",
     kcInitial := 0.9, kcMid := 0.95, kcEnd := 0.95, maxHeight := 3.0,
     growthStages :=
       { initial := 60, development := 90, midSeason := 120, lateSeason := 95 } },
   { id := "banana", name := "Banana", namePortuguese := "Banana",
     category := CROP_CATEGORIES.FRUITS,
     description := "Banana plantation (1st year)",
     kcInitial := 0.5, kcMid := 1.1, kcEnd := 1.0, maxHeight := 4.0,
     growthStages :=
       { initial := 120, development := 90, midSeason := 120, lateSeason := 60 } },
   { id := "citrus", name := "Citrus (Orange)", namePortuguese := "Laranja",
     category := CROP_CATEGORIES.FRUITS,
     description := "Orange trees with 70% canopy",
     kcInitial := 0.7, kcMid := 0.65, kcEnd := 0.7, maxHeight := 4.0,
     growthStages :=
       { initial := 60, development := 90, midSeason := 120, lateSeason := 95 } },
   { id := "mango", name := "Mango", namePortuguese := "Manga",
     category := CROP_CATEGORIES.FRUITS,
     description := "Mango orchard",
     kcInitial := 0.75, kcMid := 0.8, kcEnd := 0.75, maxHeight := 5.0,
     growthStages :=
       { initial := 90, development := 90, midSeason := 120, lateSeason := 60 } },
   { id := "tomato", name := "Tomato", namePortuguese := "Tomate",
     category := CROP_CATEGORIES.VEGETABLES,
     description := "Fresh market tomato",
     kcInitial := 0.6, kcMid := 1.15, kcEnd := 0.7, maxHeight := 0.6,
     growthStages :=
       { initial := 30, development := 40, midSeason := 50, lateSeason := 30 } },
   { id := "potato", name := "Potato", namePortuguese := "Batata",
     category := CROP_CATEGORIES.VEGETABLES,
     description := "Potato cultivation",
     kcInitial := 0.5, kcMid := 1.15, kcEnd := 0.75, maxHeight := 0.6,
     growthStages :=
       { initial := 25, development := 30, midSeason := 45, lateSeason := 30 } },
   { id := "onion-dry", name := "Onion (Dry)", namePortuguese := "Cebola",
     category := CROP_CATEGORIES.VEGETABLES,
     description := "Dry bulb onion",
     kcInitial := 0.7, kcMid := 1.05, kcEnd := 0.75, maxHeight := 0.4,
     growthStages :=
       { initial := 15, development := 25, midSeason := 70, lateSeason := 40 } },
   { id := "cassava", name := "Cassava (Manioc)", namePortuguese := "Mandioca",
     category := CROP_CATEGORIES.VEGETABLES,
     description := "Cassava root crop (1st year)",
     kcInitial := 0.3, kcMid := 0.8, kcEnd := 0.3, maxHeight := 1.0,
     growthStages :=
       { initial := 20, development := 40, midSeason := 90, lateSeason := 60 } }]

/-- `getCropById` (src/services/weather-api.ts, lines 554-556):
`BRAZILIAN_CROPS.find((crop) => crop.id === id)`; `undefined` is `none`. -/
def getCropById (id : String) : Option CropData :=
  BRAZILIAN_CROPS.find? (fun crop => crop.id == id)

/-- `getCropsByCategory` (src/services/weather-api.ts, lines 561-563). -/
def getCropsByCategory (category : String) : List CropData :=
  BRAZILIAN_CROPS.filter (fun crop => crop.category == category)

/-- `getAllCategories` (src/services/weather-api.ts, lines 568-570):
`Object.values(CROP_CATEGORIES)`. -/
def getAllCategories : List String :=
  cropCategoriesValues CROP_CATEGORIES

/-- `calculateETc` (src/services/weather-api.ts, lines 576-578). -/
def calculateETc (et0 kc : ℚ) : ℚ :=
  et0 * kc

/-- `getKcForDay` (src/services/weather-api.ts, lines 584-613): piecewise
linear Kc curve over the four growth stages. -/
def getKcForDay (crop : CropData) (dayOfSeason : ℚ) : ℚ :=
  let initial := crop.growthStages.initial
  let development := crop.growthStages.development
  let midSeason := crop.growthStages.midSeason
  let lateSeason := crop.growthStages.lateSeason
  let totalDays := initial + development + midSeason + lateSeason
  if dayOfSeason < 0 ∨ dayOfSeason > totalDays then
    crop.kcEnd
  else if dayOfSeason ≤ initial then
    crop.kcInitial
  else if dayOfSeason ≤ initial + development then
    crop.kcInitial + (dayOfSeason - initial) / development * (crop.kcMid - crop.kcInitial)
  else if dayOfSeason ≤ initial + development + midSeason then
    crop.kcMid
  else
    crop.kcMid +
      (dayOfSeason - (initial + development + midSeason)) / lateSeason *
        (crop.kcEnd - crop.kcMid)

/-- The record returned by `calculateSeasonalWaterRequirement`
(src/services/weather-api.ts, lines 621-626). -/
structure SeasonalWaterResult where
  totalDays : ℚ
  averageKc : ℚ
  totalWaterMm : ℚ
  dailyAverageWaterMm : ℚ
deriving DecidableEq

/-- `calculateSeasonalWaterRequirement`
(src/services/weather-api.ts, lines 618-652). -/
def calculateSeasonalWaterRequirement (crop : CropData) (averageET0 : ℚ) :
    SeasonalWaterResult :=
  let initial := crop.growthStages.initial
  let development := crop.growthStages.development
  let midSeason := crop.growthStages.midSeason
  let lateSeason := crop.growthStages.lateSeason
  let totalDays := initial + development + midSeason + lateSeason
  let avgKcInitial := crop.kcInitial
  let avgKcDevelopment := (crop.kcInitial + crop.kcMid) / 2
  let avgKcMid := crop.kcMid
  let avgKcLate := (crop.kcMid + crop.kcEnd) / 2
  let weightedKc :=
    (avgKcInitial * initial + avgKcDevelopment * development +
        avgKcMid * midSeason + avgKcLate * lateSeason) /
      totalDays
  let totalWaterMm := weightedKc * averageET0 * totalDays
  let dailyAverageWaterMm := totalWaterMm / totalDays
  { totalDays := totalDays
    averageKc := weightedKc
    totalWaterMm := totalWaterMm
    dailyAverageWaterMm := dailyAverageWaterMm }

/-- The reference piecewise definition of the day-indexed Kc written out in
the specification (§4.2), with explicit cumulative boundaries `b1`, `b2`,
`b3`, `totalDays`.  Kept separate from `getKcForDay` so the two can be
compared. -/
def specKcForDay (crop : CropData) (dayOfSeason : ℚ) : ℚ :=
  let b1 := crop.growthStages.initial
  let b2 := b1 + crop.growthStages.development
  let b3 := b2 + crop.growthStages.midSeason
  let totalDays := b3 + crop.growthStages.lateSeason
  if dayOfSeason < 0 ∨ dayOfSeason > totalDays then
    crop.kcEnd
  else if 0 ≤ dayOfSeason ∧ dayOfSeason ≤ b1 then
    crop.kcInitial
  else if b1 < dayOfSeason ∧ dayOfSeason ≤ b2 then
    crop.kcInitial +
      (dayOfSeason - b1) / crop.growthStages.development * (crop.kcMid - crop.kcInitial)
  else if b2 < dayOfSeason ∧ dayOfSeason ≤ b3 then
    crop.kcMid
  else
    crop.kcMid +
      (dayOfSeason - b3) / crop.growthStages.lateSeason * (crop.kcEnd - crop.kcMid)

/-- A concrete well-formed crop record (integer-valued fields) used to
instantiate the general theorems at a specific input. -/
def testCrop : CropData where
  id := "test-crop"
  name := "Test Crop"
  namePortuguese := "Cultura de Teste"
  category := "Vegetables"
  description := "synthetic record with integer coefficients"
  kcInitial := 1
  kcMid := 2
  kcEnd := 2
  maxHeight := 1
  growthStages := { initial := 10, development := 10, midSeason := 10, lateSeason := 10 }

/-- Real-valued mirror of `getKcForDay` (src/services/weather-api.ts,
lines 584-613), with the day argument ranging over `ℝ` so that the curve
can be integrated; the crop's rational fields are coerced to `ℝ`. -/
noncomputable def kcCurve (crop : CropData) (t : ℝ) : ℝ :=
  let initial : ℝ := (crop.growthStages.initial : ℝ)
  let development : ℝ := (crop.growthStages.development : ℝ)
  let midSeason : ℝ := (crop.growthStages.midSeason : ℝ)
  let lateSeason : ℝ := (crop.growthStages.lateSeason : ℝ)
  let totalDays := initial + development + midSeason + lateSeason
  if t < 0 ∨ t > totalDays then
    (crop.kcEnd : ℝ)
  else if t ≤ initial then
    (crop.kcInitial : ℝ)
  else if t ≤ initial + development then
    (crop.kcInitial : ℝ) + (t - initial) / development * ((crop.kcMid : ℝ) - (crop.kcInitial : ℝ))
  else if t ≤ initial + development + midSeason then
    (crop.kcMid : ℝ)
  else
    (crop.kcMid : ℝ) +
      (t - (initial + development + midSeason)) / lateSeason *
        ((crop.kcEnd : ℝ) - (crop.kcMid : ℝ))

/-! ### Branch evaluation lemmas for `getKcForDay` -/

lemma getKcForDay_of_out (crop : CropData) {d : ℚ}
    (h : d < 0 ∨ crop.growthStages.initial + crop.growthStages.development +
      crop.growthStages.midSeason + crop.growthStages.lateSeason < d) :
    getKcForDay crop d = crop.kcEnd := by
  simp only [getKcForDay]
  rw [if_pos h]

lemma getKcForDay_of_initial (crop : CropData) {d : ℚ}
    (hD : 0 ≤ crop.growthStages.development) (hM : 0 ≤ crop.growthStages.midSeason)
    (hL : 0 ≤ crop.growthStages.lateSeason)
    (h0 : 0 ≤ d) (h1 : d ≤ crop.growthStages.initial) :
    getKcForDay crop d = crop.kcInitial := by
  simp only [getKcForDay]
  rw [if_neg (by push_neg; exact ⟨h0, by linarith⟩), if_pos h1]

lemma getKcForDay_of_dev (crop : CropData) {d : ℚ}
    (hI : 0 ≤ crop.growthStages.initial) (hM : 0 ≤ crop.growthStages.midSeason)
    (hL : 0 ≤ crop.growthStages.lateSeason)
    (ha : crop.growthStages.initial < d)
    (hb : d ≤ crop.growthStages.initial + crop.growthStages.development) :
    getKcForDay crop d = crop.kcInitial +
      (d - crop.growthStages.initial) / crop.growthStages.development *
        (crop.kcMid - crop.kcInitial) := by
  simp only [getKcForDay]
  rw [if_neg (by push_neg; exact ⟨by linarith, by linarith⟩), if_neg (by linarith),
    if_pos hb]

lemma getKcForDay_of_mid (crop : CropData) {d : ℚ}
    (hI : 0 ≤ crop.growthStages.initial) (hD : 0 ≤ crop.growthStages.development)
    (hL : 0 ≤ crop.growthStages.lateSeason)
    (ha : crop.growthStages.initial + crop.growthStages.development < d)
    (hb : d ≤ crop.growthStages.initial + crop.growthStages.development +
      crop.growthStages.midSeason) :
    getKcForDay crop d = crop.kcMid := by
  simp only [getKcForDay]
  rw [if_neg (by push_neg; exact ⟨by linarith, by linarith⟩), if_neg (by linarith),
    if_neg (by linarith), if_pos hb]

lemma getKcForDay_of_late (crop : CropData) {d : ℚ}
    (hI : 0 ≤ crop.growthStages.initial) (hD : 0 ≤ crop.growthStages.development)
    (hM : 0 ≤ crop.growthStages.midSeason)
    (ha : crop.growthStages.initial + crop.growthStages.development +
      crop.growthStages.midSeason < d)
    (hb : d ≤ crop.growthStages.initial + crop.growthStages.development +
      crop.growthStages.midSeason + crop.growthStages.lateSeason) :
    getKcForDay crop d = crop.kcMid +
      (d - (crop.growthStages.initial + crop.growthStages.development +
          crop.growthStages.midSeason)) / crop.growthStages.lateSeason *
        (crop.kcEnd - crop.kcMid) := by
  simp only [getKcForDay]
  rw [if_neg (by push_neg; exact ⟨by linarith, hb⟩), if_neg (by linarith),
    if_neg (by linarith), if_neg (by linarith)]

/-- C1: for a crop with strictly positive stage lengths, `getKcForDay`
coincides everywhere with the specification's reference piecewise
definition, takes the value `kcInitial` at `b1 = initial`, `kcMid` at
`b3 = initial + development + midSeason`, and `kcEnd` at `totalDays`; it is
a total function, so it never errors. -/
theorem getKcForDay_matches_spec (crop : CropData)
    (h1 : 0 < crop.growthStages.initial) (h2 : 0 < crop.growthStages.development)
    (h3 : 0 < crop.growthStages.midSeason) (h4 : 0 < crop.growthStages.lateSeason) :
    (∀ d : ℚ, getKcForDay crop d = specKcForDay crop d) ∧
    getKcForDay crop crop.growthStages.initial = crop.kcInitial ∧
    getKcForDay crop (crop.growthStages.initial + crop.growthStages.development +
      crop.growthStages.midSeason) = crop.kcMid ∧
    getKcForDay crop (crop.growthStages.initial + crop.growthStages.development +
      crop.growthStages.midSeason + crop.growthStages.lateSeason) = crop.kcEnd := by
  set i := crop.growthStages.initial with hi
  set dv := crop.growthStages.development with hdv
  set m := crop.growthStages.midSeason with hm
  set l := crop.growthStages.lateSeason with hl
  refine ⟨?_, ?_, ?_, ?_⟩
  · intro d
    rcases lt_or_le d 0 with hneg | hge
    · rw [getKcForDay_of_out crop (Or.inl hneg)]
      simp only [specKcForDay]
      rw [if_pos (Or.inl hneg)]
    rcases lt_or_le (i + dv + m + l) d with hbig | hle
    · rw [getKcForDay_of_out crop (Or.inr hbig)]
      simp only [specKcForDay]
      rw [if_pos (Or.inr hbig)]
    rcases le_or_lt d i with hd1 | hd1
    · rw [getKcForDay_of_initial crop h2.le h3.le h4.le hge hd1]
      simp only [specKcForDay]
      rw [if_neg (by push_neg; exact ⟨hge, hle⟩), if_pos ⟨hge, hd1⟩]
    rcases le_or_lt d (i + dv) with hd2 | hd2
    · rw [getKcForDay_of_dev crop h1.le h3.le h4.le hd1 hd2]
      simp only [specKcForDay]
      rw [if_neg (by push_neg; exact ⟨hge, hle⟩),
        if_neg (by rintro ⟨-, h⟩; exact absurd h (not_le.mpr hd1)), if_pos ⟨hd1, hd2⟩]
    rcases le_or_lt d (i + dv + m) with hd3 | hd3
    · rw [getKcForDay_of_mid crop h1.le h2.le h4.le hd2 hd3]
      simp only [specKcForDay]
      rw [if_neg (by push_neg; exact ⟨hge, hle⟩),
        if_neg (by rintro ⟨-, h⟩; exact absurd h (by push_neg; linarith)),
        if_neg (by rintro ⟨-, h⟩; exact absurd h (not_le.mpr hd2)), if_pos ⟨hd2, hd3⟩]
    · rw [getKcForDay_of_late crop h1.le h2.le h3.le hd3 hle]
      simp only [specKcForDay]
      rw [if_neg (by push_neg; exact ⟨hge, hle⟩),
        if_neg (by rintro ⟨-, h⟩; exact absurd h (by push_neg; linarith)),
        if_neg (by rintro ⟨-, h⟩; exact absurd h (by push_neg; linarith)),
        if_neg (by rintro ⟨-, h⟩; exact absurd h (not_le.mpr hd3))]
  · exact getKcForDay_of_initial crop h2.le h3.le h4.le h1.le le_rfl
  · rw [getKcForDay_of_mid crop h1.le h2.le h4.le (by linarith) le_rfl]
  · rw [getKcForDay_of_late crop h1.le h2.le h3.le (by linarith) le_rfl]
    field_simp

/-- Witness for C1: the general theorem applied to the concrete record
`testCrop`, evaluated at day 15 and at the initial-stage boundary. -/
theorem getKcForDay_matches_spec_witness :
    getKcForDay testCrop 15 = specKcForDay testCrop 15 ∧
    getKcForDay testCrop testCrop.growthStages.initial = testCrop.kcInitial :=
  ⟨(getKcForDay_matches_spec testCrop (by simp [testCrop]) (by simp [testCrop])
      (by simp [testCrop]) (by simp [testCrop])).1 15,
   (getKcForDay_matches_spec testCrop (by simp [testCrop]) (by simp [testCrop])
      (by simp [testCrop]) (by simp [testCrop])).2.1⟩

/-- C2: the record returned by `calculateSeasonalWaterRequirement` satisfies
the four field equations of the specification: `totalDays` is the sum of the
stage lengths, `averageKc` is the duration-weighted mean of the per-stage
average Kc values, `totalWaterMm = averageKc * averageET0 * totalDays`, and
`dailyAverageWaterMm = totalWaterMm / totalDays`. -/
theorem calculateSeasonalWaterRequirement_spec (crop : CropData) (averageET0 : ℚ)
    (h1 : 0 < crop.growthStages.initial) (h2 : 0 < crop.growthStages.development)
    (h3 : 0 < crop.growthStages.midSeason) (h4 : 0 < crop.growthStages.lateSeason) :
    (calculateSeasonalWaterRequirement crop averageET0).totalDays =
      crop.growthStages.initial + crop.growthStages.development +
        crop.growthStages.midSeason + crop.growthStages.lateSeason ∧
    (calculateSeasonalWaterRequirement crop averageET0).averageKc =
      (crop.kcInitial * crop.growthStages.initial +
          (crop.kcInitial + crop.kcMid) / 2 * crop.growthStages.development +
          crop.kcMid * crop.growthStages.midSeason +
          (crop.kcMid + crop.kcEnd) / 2 * crop.growthStages.lateSeason) /
        (crop.growthStages.initial + crop.growthStages.development +
          crop.growthStages.midSeason + crop.growthStages.lateSeason) ∧
    (calculateSeasonalWaterRequirement crop averageET0).totalWaterMm =
      (calculateSeasonalWaterRequirement crop averageET0).averageKc * averageET0 *
        (calculateSeasonalWaterRequirement crop averageET0).totalDays ∧
    (calculateSeasonalWaterRequirement crop averageET0).dailyAverageWaterMm =
      (calculateSeasonalWaterRequirement crop averageET0).totalWaterMm /
        (calculateSeasonalWaterRequirement crop averageET0).totalDays :=
  ⟨rfl, rfl, rfl, rfl⟩

/-- Witness for C2: the general theorem applied to `testCrop` with
`averageET0 = 5`. -/
theorem calculateSeasonalWaterRequirement_spec_witness :
    (calculateSeasonalWaterRequirement testCrop 5).totalDays =
      testCrop.growthStages.initial + testCrop.growthStages.development +
        testCrop.growthStages.midSeason + testCrop.growthStages.lateSeason ∧
    (calculateSeasonalWaterRequirement testCrop 5).averageKc =
      (testCrop.kcInitial * testCrop.growthStages.initial +
          (testCrop.kcInitial + testCrop.kcMid) / 2 * testCrop.growthStages.development +
          testCrop.kcMid * testCrop.growthStages.midSeason +
          (testCrop.kcMid + testCrop.kcEnd) / 2 * testCrop.growthStages.lateSeason) /
        (testCrop.growthStages.initial + testCrop.growthStages.development +
          testCrop.growthStages.midSeason + testCrop.growthStages.lateSeason) ∧
    (calculateSeasonalWaterRequirement testCrop 5).totalWaterMm =
      (calculateSeasonalWaterRequirement testCrop 5).averageKc * 5 *
        (calculateSeasonalWaterRequirement testCrop 5).totalDays ∧
    (calculateSeasonalWaterRequirement testCrop 5).dailyAverageWaterMm =
      (calculateSeasonalWaterRequirement testCrop 5).totalWaterMm /
        (calculateSeasonalWaterRequirement testCrop 5).totalDays :=
  calculateSeasonalWaterRequirement_spec testCrop 5 (by simp [testCrop])
    (by simp [testCrop]) (by simp [testCrop]) (by simp [testCrop])

/-- C4: `calculateETc` is plain multiplication with no validation: it equals
`et0 * kc` for all rational inputs, zero inputs propagate to a zero result,
and the concrete scenario `calculateETc 5 1.15 = 5.75` holds. -/
theorem calculateETc_spec :
    (∀ et0 kc : ℚ, calculateETc et0 kc = et0 * kc ∧ calculateETc 0 kc = 0 ∧
      calculateETc et0 0 = 0) ∧
    calculateETc 5 1.15 = 5.75 :=
  ⟨fun et0 kc => ⟨rfl, zero_mul kc, mul_zero et0⟩, by norm_num [calculateETc]⟩

/-- C10: for a crop with positive stage lengths, the `dailyAverageWaterMm`
field equals `averageKc * averageET0`, independently of the stage lengths. -/
theorem dailyAverage_eq_averageKc_mul_et0 (crop : CropData) (averageET0 : ℚ)
    (h1 : 0 < crop.growthStages.initial) (h2 : 0 < crop.growthStages.development)
    (h3 : 0 < crop.growthStages.midSeason) (h4 : 0 < crop.growthStages.lateSeason) :
    (calculateSeasonalWaterRequirement crop averageET0).dailyAverageWaterMm =
      (calculateSeasonalWaterRequirement crop averageET0).averageKc * averageET0 := by
  have htot : (0:ℚ) < crop.growthStages.initial + crop.growthStages.development +
      crop.growthStages.midSeason + crop.growthStages.lateSeason := by linarith
  simp only [calculateSeasonalWaterRequirement]
  rw [mul_div_assoc, div_self htot.ne', mul_one]

/-- Witness for C10: the general theorem applied to `testCrop` with
`averageET0 = 3`. -/
theorem dailyAverage_eq_averageKc_mul_et0_witness :
    (calculateSeasonalWaterRequirement testCrop 3).dailyAverageWaterMm =
      (calculateSeasonalWaterRequirement testCrop 3).averageKc * 3 :=
  dailyAverage_eq_averageKc_mul_et0 testCrop 3 (by simp [testCrop])
    (by simp [testCrop]) (by simp [testCrop]) (by simp [testCrop])

/-- Convex combinations `a + t * (b - a)` with `t ∈ [0, 1]` stay between
`min a b` and `max a b`. -/
lemma convex_comb_bounds {a b t : ℚ} (h0 : 0 ≤ t) (h1 : t ≤ 1) :
    min a b ≤ a + t * (b - a) ∧ a + t * (b - a) ≤ max a b := by
  rcases le_total a b with h | h
  · rw [min_eq_left h, max_eq_right h]
    constructor <;> nlinarith
  · rw [min_eq_right h, max_eq_left h]
    constructor <;> nlinarith

/-- C5: over the development stage the Kc curve is non-decreasing when
`kcInitial < kcMid`; over the late-season stage it is non-decreasing when
`kcMid ≤ kcEnd` and non-increasing when `kcEnd ≤ kcMid`. -/
theorem getKcForDay_monotone (crop : CropData)
    (h1 : 0 < crop.growthStages.initial) (h2 : 0 < crop.growthStages.development)
    (h3 : 0 < crop.growthStages.midSeason) (h4 : 0 < crop.growthStages.lateSeason)
    (d1 d2 : ℚ) :
    (crop.kcInitial < crop.kcMid → crop.growthStages.initial < d1 → d1 ≤ d2 →
      d2 ≤ crop.growthStages.initial + crop.growthStages.development →
      getKcForDay crop d1 ≤ getKcForDay crop d2) ∧
    (crop.growthStages.initial + crop.growthStages.development +
        crop.growthStages.midSeason < d1 → d1 ≤ d2 →
      d2 ≤ crop.growthStages.initial + crop.growthStages.development +
        crop.growthStages.midSeason + crop.growthStages.lateSeason →
      ((crop.kcMid ≤ crop.kcEnd → getKcForDay crop d1 ≤ getKcForDay crop d2) ∧
       (crop.kcEnd ≤ crop.kcMid → getKcForDay crop d2 ≤ getKcForDay crop d1))) := by
  constructor
  · intro hkc ha hab hb
    rw [getKcForDay_of_dev crop h1.le h3.le h4.le ha (hab.trans hb),
      getKcForDay_of_dev crop h1.le h3.le h4.le (ha.trans_le hab) hb]
    have hdiv : (d1 - crop.growthStages.initial) / crop.growthStages.development ≤
        (d2 - crop.growthStages.initial) / crop.growthStages.development :=
      (div_le_div_right h2).mpr (by linarith)
    have hΔ : (0:ℚ) ≤ crop.kcMid - crop.kcInitial := by linarith
    exact add_le_add_left (mul_le_mul_of_nonneg_right hdiv hΔ) _
  · intro ha hab hb
    rw [getKcForDay_of_late crop h1.le h2.le h3.le ha (hab.trans hb),
      getKcForDay_of_late crop h1.le h2.le h3.le (ha.trans_le hab) hb]
    have hdiv : (d1 - (crop.growthStages.initial + crop.growthStages.development +
          crop.growthStages.midSeason)) / crop.growthStages.lateSeason ≤
        (d2 - (crop.growthStages.initial + crop.growthStages.development +
          crop.growthStages.midSeason)) / crop.growthStages.lateSeason :=
      (div_le_div_right h4).mpr (by linarith)
    constructor
    · intro hkc
      have hΔ : (0:ℚ) ≤ crop.kcEnd - crop.kcMid := by linarith
      exact add_le_add_left (mul_le_mul_of_nonneg_right hdiv hΔ) _
    · intro hkc
      have hΔ : crop.kcEnd - crop.kcMid ≤ 0 := by linarith
      exact add_le_add_left (mul_le_mul_of_nonpos_right hdiv hΔ) _

/-- Witness for C5: the general theorem applied to `testCrop` on the
development ramp (days 12 and 15) and on the late-season ramp (days 32
and 38). -/
theorem getKcForDay_monotone_witness :
    getKcForDay testCrop 12 ≤ getKcForDay testCrop 15 ∧
    getKcForDay testCrop 32 ≤ getKcForDay testCrop 38 ∧
    getKcForDay testCrop 38 ≤ getKcForDay testCrop 32 :=
  ⟨(getKcForDay_monotone testCrop (by norm_num [testCrop]) (by norm_num [testCrop])
      (by norm_num [testCrop]) (by norm_num [testCrop]) 12 15).1 (by norm_num [testCrop])
      (by norm_num [testCrop]) (by norm_num) (by norm_num [testCrop]),
   ((getKcForDay_monotone testCrop (by norm_num [testCrop]) (by norm_num [testCrop])
      (by norm_num [testCrop]) (by norm_num [testCrop]) 32 38).2 (by norm_num [testCrop])
      (by norm_num) (by norm_num [testCrop])).1 (by norm_num [testCrop]),
   ((getKcForDay_monotone testCrop (by norm_num [testCrop]) (by norm_num [testCrop])
      (by norm_num [testCrop]) (by norm_num [testCrop]) 32 38).2 (by norm_num [testCrop])
      (by norm_num) (by norm_num [testCrop])).2 (by norm_num [testCrop])⟩

/-- C9: for a crop with strictly positive stage lengths, every value of
`getKcForDay` — including out-of-range days — lies between the minimum and
the maximum of the three crop coefficients. -/
theorem getKcForDay_range (crop : CropData)
    (h1 : 0 < crop.growthStages.initial) (h2 : 0 < crop.growthStages.development)
    (h3 : 0 < crop.growthStages.midSeason) (h4 : 0 < crop.growthStages.lateSeason)
    (d : ℚ) :
    min (min crop.kcInitial crop.kcMid) crop.kcEnd ≤ getKcForDay crop d ∧
    getKcForDay crop d ≤ max (max crop.kcInitial crop.kcMid) crop.kcEnd := by
  set i := crop.growthStages.initial with hi
  set dv := crop.growthStages.development with hdv
  set m := crop.growthStages.midSeason with hm
  set l := crop.growthStages.lateSeason with hl
  rcases lt_or_le d 0 with hneg | hge
  · rw [getKcForDay_of_out crop (Or.inl hneg)]
    exact ⟨min_le_right _ _, le_max_right _ _⟩
  rcases lt_or_le (i + dv + m + l) d with hbig | hle
  · rw [getKcForDay_of_out crop (Or.inr hbig)]
    exact ⟨min_le_right _ _, le_max_right _ _⟩
  rcases le_or_lt d i with hd1 | hd1
  · rw [getKcForDay_of_initial crop h2.le h3.le h4.le hge hd1]
    exact ⟨(min_le_left _ _).trans (min_le_left _ _),
      (le_max_left _ _).trans' (le_max_left _ _)⟩
  rcases le_or_lt d (i + dv) with hd2 | hd2
  · rw [getKcForDay_of_dev crop h1.le h3.le h4.le hd1 hd2]
    have ht0 : 0 ≤ (d - i) / dv := div_nonneg (by linarith) h2.le
    have ht1 : (d - i) / dv ≤ 1 := (div_le_one h2).mpr (by linarith)
    obtain ⟨hlo, hhi⟩ := convex_comb_bounds ht0 ht1
    exact ⟨(min_le_left _ _).trans hlo, hhi.trans (le_max_left _ _)⟩
  rcases le_or_lt d (i + dv + m) with hd3 | hd3
  · rw [getKcForDay_of_mid crop h1.le h2.le h4.le hd2 hd3]
    exact ⟨(min_le_left _ _).trans (min_le_right _ _),
      (le_max_right _ _).trans (le_max_left _ _)⟩
  · rw [getKcForDay_of_late crop h1.le h2.le h3.le hd3 hle]
    have ht0 : 0 ≤ (d - (i + dv + m)) / l := div_nonneg (by linarith) h4.le
    have ht1 : (d - (i + dv + m)) / l ≤ 1 := (div_le_one h4).mpr (by linarith)
    obtain ⟨hlo, hhi⟩ := convex_comb_bounds ht0 ht1
    refine ⟨le_trans ?_ hlo, hhi.trans ?_⟩
    · exact le_min ((min_le_left _ _).trans (min_le_right _ _)) (min_le_right _ _)
    · exact max_le ((le_max_right _ _).trans (le_max_left _ _)) (le_max_right _ _)

/-- Witness for C9: the general theorem applied to `testCrop` at day 35
(on the late-season ramp). -/
theorem getKcForDay_range_witness :
    min (min testCrop.kcInitial testCrop.kcMid) testCrop.kcEnd ≤
      getKcForDay testCrop 35 ∧
    getKcForDay testCrop 35 ≤
      max (max testCrop.kcInitial testCrop.kcMid) testCrop.kcEnd :=
  getKcForDay_range testCrop (by simp [testCrop]) (by simp [testCrop])
    (by simp [testCrop]) (by simp [testCrop]) 35

/-- C6: `getAllCategories` returns exactly the eight declared category
labels, in declaration order, directly from the declared constant set
(its definition reads only `CROP_CATEGORIES`, not the crop catalog). -/
theorem getAllCategories_spec :
    getAllCategories =
      ["Grains & Cereals", "Legumes & Pulses", "Fiber Crops", "Sugar Crops",
       "Beverage Crops", "Fruits", "Vegetables", "Oilseeds"] ∧
    getAllCategories.length = 8 ∧
    getAllCategories = cropCategoriesValues CROP_CATEGORIES :=
  ⟨rfl, rfl, rfl⟩

/-- Any crop produced by `getCropById id` carries the looked-up id. -/
lemma getCropById_some_id {id : String} {c : CropData} (h : getCropById id = some c) :
    c.id = id := by
  simp only [getCropById] at h
  have h2 := List.find?_some h
  exact eq_of_beq h2

/-- `getCropById` returns `none` exactly when no catalog entry has the id. -/
lemma getCropById_eq_none_iff (id : String) :
    getCropById id = none ↔ ∀ c ∈ BRAZILIAN_CROPS, c.id ≠ id := by
  simp [getCropById, List.find?_eq_none]

/-- C7: `getCropById` is an exact-match lookup returning an explicit absent
result: any returned crop has the requested id, an id present in the catalog
is found, and the result is `none` precisely when no catalog entry has the
id (no exception is possible: the function is total into `Option`). -/
theorem getCropById_spec (id : String) :
    (∀ c, getCropById id = some c → c.id = id) ∧
    ((∃ c ∈ BRAZILIAN_CROPS, c.id = id) → ∃ c, getCropById id = some c ∧ c.id = id) ∧
    (getCropById id = none ↔ ∀ c ∈ BRAZILIAN_CROPS, c.id ≠ id) := by
  refine ⟨fun c h => getCropById_some_id h, ?_, getCropById_eq_none_iff id⟩
  rintro ⟨c0, hmem, hid⟩
  cases h : getCropById id with
  | none => exact absurd hid ((getCropById_eq_none_iff id).mp h c0 hmem)
  | some c => exact ⟨c, rfl, getCropById_some_id h⟩

/-- Witness for C7: the lookup succeeds for `"corn"` (present in the
catalog) and yields `none` for `"zzz"` (absent). -/
theorem getCropById_spec_witness :
    (∃ c, getCropById "corn" = some c ∧ c.id = "corn") ∧
    getCropById "zzz" = none :=
  ⟨(getCropById_spec "corn").2.1 ⟨_, List.Mem.head _, rfl⟩,
   (getCropById_spec "zzz").2.2.mpr (by decide)⟩

/-- C8: every record of the fixed catalog `BRAZILIAN_CROPS` has strictly
positive stage lengths and crop coefficients that are strictly positive and
at most 1.5; the catalog is a constant definition, so no operation mutates
it. -/
theorem catalog_invariant : ∀ c ∈ BRAZILIAN_CROPS,
    (0 < c.growthStages.initial ∧ 0 < c.growthStages.development ∧
      0 < c.growthStages.midSeason ∧ 0 < c.growthStages.lateSeason) ∧
    (0 < c.kcInitial ∧ c.kcInitial ≤ 1.5) ∧
    (0 < c.kcMid ∧ c.kcMid ≤ 1.5) ∧
    (0 < c.kcEnd ∧ c.kcEnd ≤ 1.5) := by
  intro c hc
  fin_cases hc <;> norm_num

/-- Witness for C8: the invariant instantiated at the first catalog entry. -/
theorem catalog_invariant_witness :
    ∃ c, c ∈ BRAZILIAN_CROPS ∧
      ((0 < c.growthStages.initial ∧ 0 < c.growthStages.development ∧
        0 < c.growthStages.midSeason ∧ 0 < c.growthStages.lateSeason) ∧
      (0 < c.kcInitial ∧ c.kcInitial ≤ 1.5) ∧
      (0 < c.kcMid ∧ c.kcMid ≤ 1.5) ∧
      (0 < c.kcEnd ∧ c.kcEnd ≤ 1.5)) :=
  ⟨_, List.Mem.head _, catalog_invariant _ (List.Mem.head _)⟩

/-! ### The Kc curve over `ℝ` and its integral -/

lemma kcCurve_eqOn_initial (crop : CropData)
    (h2 : 0 < crop.growthStages.development) (h3 : 0 < crop.growthStages.midSeason)
    (h4 : 0 < crop.growthStages.lateSeason) :
    Set.EqOn (kcCurve crop) (fun _ => (crop.kcInitial : ℝ))
      (Set.Icc 0 (crop.growthStages.initial : ℝ)) := by
  intro t ht
  have hD : (0:ℝ) < (crop.growthStages.development : ℝ) := by exact_mod_cast h2
  have hM : (0:ℝ) < (crop.growthStages.midSeason : ℝ) := by exact_mod_cast h3
  have hL : (0:ℝ) < (crop.growthStages.lateSeason : ℝ) := by exact_mod_cast h4
  obtain ⟨ht0, ht1⟩ := ht
  simp only [kcCurve]
  rw [if_neg (by push_neg; exact ⟨ht0, by linarith⟩), if_pos ht1]

lemma kcCurve_eqOn_dev (crop : CropData)
    (h1 : 0 < crop.growthStages.initial) (h2 : 0 < crop.growthStages.development)
    (h3 : 0 < crop.growthStages.midSeason) (h4 : 0 < crop.growthStages.lateSeason) :
    Set.EqOn (kcCurve crop)
      (fun t => (crop.kcInitial : ℝ) +
        ((crop.kcMid : ℝ) - (crop.kcInitial : ℝ)) / (crop.growthStages.development : ℝ) *
          (t - (crop.growthStages.initial : ℝ)))
      (Set.Icc (crop.growthStages.initial : ℝ)
        ((crop.growthStages.initial : ℝ) + (crop.growthStages.development : ℝ))) := by
  intro t ht
  have hI : (0:ℝ) < (crop.growthStages.initial : ℝ) := by exact_mod_cast h1
  have hD : (0:ℝ) < (crop.growthStages.development : ℝ) := by exact_mod_cast h2
  have hM : (0:ℝ) < (crop.growthStages.midSeason : ℝ) := by exact_mod_cast h3
  have hL : (0:ℝ) < (crop.growthStages.lateSeason : ℝ) := by exact_mod_cast h4
  obtain ⟨ht0, ht1⟩ := ht
  simp only [kcCurve]
  rcases eq_or_lt_of_le ht0 with heq | hlt
  · rw [if_neg (by push_neg; exact ⟨by linarith, by linarith⟩),
      if_pos (le_of_eq heq.symm), ← heq]
    simp
  · rw [if_neg (by push_neg; exact ⟨by linarith, by linarith⟩),
      if_neg (not_le.mpr hlt), if_pos ht1]
    ring

lemma kcCurve_eqOn_mid (crop : CropData)
    (h1 : 0 < crop.growthStages.initial) (h2 : 0 < crop.growthStages.development)
    (h3 : 0 < crop.growthStages.midSeason) (h4 : 0 < crop.growthStages.lateSeason) :
    Set.EqOn (kcCurve crop) (fun _ => (crop.kcMid : ℝ))
      (Set.Icc ((crop.growthStages.initial : ℝ) + (crop.growthStages.development : ℝ))
        ((crop.growthStages.initial : ℝ) + (crop.growthStages.development : ℝ) +
          (crop.growthStages.midSeason : ℝ))) := by
  intro t ht
  have hI : (0:ℝ) < (crop.growthStages.initial : ℝ) := by exact_mod_cast h1
  have hD : (0:ℝ) < (crop.growthStages.development : ℝ) := by exact_mod_cast h2
  have hM : (0:ℝ) < (crop.growthStages.midSeason : ℝ) := by exact_mod_cast h3
  have hL : (0:ℝ) < (crop.growthStages.lateSeason : ℝ) := by exact_mod_cast h4
  obtain ⟨ht0, ht1⟩ := ht
  simp only [kcCurve]
  rcases eq_or_lt_of_le ht0 with heq | hlt
  · rw [if_neg (by push_neg; exact ⟨by linarith, by linarith⟩),
      if_neg (by push_neg; linarith), if_pos (le_of_eq heq.symm), ← heq,
      show (crop.growthStages.initial : ℝ) + (crop.growthStages.development : ℝ) -
          (crop.growthStages.initial : ℝ) = (crop.growthStages.development : ℝ) from by ring,
      div_self hD.ne', one_mul]
    ring
  · rw [if_neg (by push_neg; exact ⟨by linarith, by linarith⟩),
      if_neg (by push_neg; linarith), if_neg (not_le.mpr hlt), if_pos ht1]

lemma kcCurve_eqOn_late (crop : CropData)
    (h1 : 0 < crop.growthStages.initial) (h2 : 0 < crop.growthStages.development)
    (h3 : 0 < crop.growthStages.midSeason) (h4 : 0 < crop.growthStages.lateSeason) :
    Set.EqOn (kcCurve crop)
      (fun t => (crop.kcMid : ℝ) +
        ((crop.kcEnd : ℝ) - (crop.kcMid : ℝ)) / (crop.growthStages.lateSeason : ℝ) *
          (t - ((crop.growthStages.initial : ℝ) + (crop.growthStages.development : ℝ) +
            (crop.growthStages.midSeason : ℝ))))
      (Set.Icc ((crop.growthStages.initial : ℝ) + (crop.growthStages.development : ℝ) +
          (crop.growthStages.midSeason : ℝ))
        ((crop.growthStages.initial : ℝ) + (crop.growthStages.development : ℝ) +
          (crop.growthStages.midSeason : ℝ) + (crop.growthStages.lateSeason : ℝ))) := by
  intro t ht
  have hI : (0:ℝ) < (crop.growthStages.initial : ℝ) := by exact_mod_cast h1
  have hD : (0:ℝ) < (crop.growthStages.development : ℝ) := by exact_mod_cast h2
  have hM : (0:ℝ) < (crop.growthStages.midSeason : ℝ) := by exact_mod_cast h3
  have hL : (0:ℝ) < (crop.growthStages.lateSeason : ℝ) := by exact_mod_cast h4
  obtain ⟨ht0, ht1⟩ := ht
  simp only [kcCurve]
  rcases eq_or_lt_of_le ht0 with heq | hlt
  · rw [if_neg (by push_neg; exact ⟨by linarith, by linarith⟩),
      if_neg (by push_neg; linarith), if_neg (by push_neg; linarith),
      if_pos (le_of_eq heq.symm), ← heq]
    simp
  · rw [if_neg (by push_neg; exact ⟨by linarith, by linarith⟩),
      if_neg (by push_neg; linarith), if_neg (by push_neg; linarith),
      if_neg (not_le.mpr hlt)]
    ring

lemma intervalIntegrable_of_eqOn {f g : ℝ → ℝ} {a b : ℝ} (hab : a ≤ b)
    (h : Set.EqOn f g (Set.Icc a b)) (hg : Continuous g) :
    IntervalIntegrable f MeasureTheory.volume a b := by
  refine (hg.intervalIntegrable a b).congr ?_
  have hsub : Set.uIoc a b ⊆ Set.Icc a b := by
    rw [Set.uIoc_of_le hab]
    exact Set.Ioc_subset_Icc_self
  exact (MeasureTheory.ae_restrict_mem measurableSet_uIoc).mono
    fun x hx => (h (hsub hx)).symm

lemma intervalIntegral_congr_eqOn {f g : ℝ → ℝ} {a b : ℝ} (hab : a ≤ b)
    (h : Set.EqOn f g (Set.Icc a b)) :
    ∫ x in a..b, f x = ∫ x in a..b, g x :=
  intervalIntegral.integral_congr (by rwa [Set.uIcc_of_le hab])

open intervalIntegral in
/-- The interval integral of an affine function anchored at the left
endpoint. -/
lemma integral_affine_anchored (a b c e : ℝ) :
    ∫ x in a..b, (c + e * (x - a)) = c * (b - a) + e * ((b - a) ^ 2 / 2) := by
  have h : (fun x : ℝ => c + e * (x - a)) = fun x => e * x + (c - e * a) := by
    funext x; ring
  have hf : IntervalIntegrable (fun x : ℝ => e * x) MeasureTheory.volume a b :=
    (continuous_const.mul continuous_id).intervalIntegrable a b
  rw [h, intervalIntegral.integral_add hf intervalIntegrable_const,
    integral_const_mul, integral_id, integral_const, smul_eq_mul]
  ring

/-- The integral of the Kc curve over the whole season is the sum of the
four per-stage endpoint-average areas. -/
lemma kcCurve_integral (crop : CropData)
    (h1 : 0 < crop.growthStages.initial) (h2 : 0 < crop.growthStages.development)
    (h3 : 0 < crop.growthStages.midSeason) (h4 : 0 < crop.growthStages.lateSeason) :
    ∫ t in (0:ℝ)..((crop.growthStages.initial : ℝ) + (crop.growthStages.development : ℝ) +
        (crop.growthStages.midSeason : ℝ) + (crop.growthStages.lateSeason : ℝ)),
      kcCurve crop t =
    (crop.kcInitial : ℝ) * (crop.growthStages.initial : ℝ) +
      ((crop.kcInitial : ℝ) + (crop.kcMid : ℝ)) / 2 * (crop.growthStages.development : ℝ) +
      (crop.kcMid : ℝ) * (crop.growthStages.midSeason : ℝ) +
      ((crop.kcMid : ℝ) + (crop.kcEnd : ℝ)) / 2 * (crop.growthStages.lateSeason : ℝ) := by
  have hI : (0:ℝ) < (crop.growthStages.initial : ℝ) := by exact_mod_cast h1
  have hD : (0:ℝ) < (crop.growthStages.development : ℝ) := by exact_mod_cast h2
  have hM : (0:ℝ) < (crop.growthStages.midSeason : ℝ) := by exact_mod_cast h3
  have hL : (0:ℝ) < (crop.growthStages.lateSeason : ℝ) := by exact_mod_cast h4
  have hD0 : (crop.growthStages.development : ℝ) ≠ 0 := hD.ne'
  have hL0 : (crop.growthStages.lateSeason : ℝ) ≠ 0 := hL.ne'
  have e1 := kcCurve_eqOn_initial crop h2 h3 h4
  have e2 := kcCurve_eqOn_dev crop h1 h2 h3 h4
  have e3 := kcCurve_eqOn_mid crop h1 h2 h3 h4
  have e4 := kcCurve_eqOn_late crop h1 h2 h3 h4
  have c2 : Continuous (fun t : ℝ => (crop.kcInitial : ℝ) +
      ((crop.kcMid : ℝ) - (crop.kcInitial : ℝ)) / (crop.growthStages.development : ℝ) *
        (t - (crop.growthStages.initial : ℝ))) := by continuity
  have c4 : Continuous (fun t : ℝ => (crop.kcMid : ℝ) +
      ((crop.kcEnd : ℝ) - (crop.kcMid : ℝ)) / (crop.growthStages.lateSeason : ℝ) *
        (t - ((crop.growthStages.initial : ℝ) + (crop.growthStages.development : ℝ) +
          (crop.growthStages.midSeason : ℝ)))) := by continuity
  have i1 : IntervalIntegrable (kcCurve crop) MeasureTheory.volume 0
      (crop.growthStages.initial : ℝ) :=
    intervalIntegrable_of_eqOn hI.le e1 continuous_const
  have i2 := intervalIntegrable_of_eqOn (by linarith) e2 c2
  have i3 := intervalIntegrable_of_eqOn (by linarith) e3 continuous_const
  have i4 := intervalIntegrable_of_eqOn (by linarith) e4 c4
  have p1 : ∫ t in (0:ℝ)..(crop.growthStages.initial : ℝ), kcCurve crop t =
      (crop.kcInitial : ℝ) * (crop.growthStages.initial : ℝ) := by
    rw [intervalIntegral_congr_eqOn hI.le e1, intervalIntegral.integral_const,
      smul_eq_mul]
    ring
  have p2 : ∫ t in (crop.growthStages.initial : ℝ)..((crop.growthStages.initial : ℝ) +
      (crop.growthStages.development : ℝ)), kcCurve crop t =
      ((crop.kcInitial : ℝ) + (crop.kcMid : ℝ)) / 2 * (crop.growthStages.development : ℝ) := by
    rw [intervalIntegral_congr_eqOn (by linarith) e2, integral_affine_anchored]
    field_simp
    ring
  have p3 : ∫ t in ((crop.growthStages.initial : ℝ) +
      (crop.growthStages.development : ℝ))..((crop.growthStages.initial : ℝ) +
      (crop.growthStages.development : ℝ) + (crop.growthStages.midSeason : ℝ)),
      kcCurve crop t = (crop.kcMid : ℝ) * (crop.growthStages.midSeason : ℝ) := by
    rw [intervalIntegral_congr_eqOn (by linarith) e3, intervalIntegral.integral_const,
      smul_eq_mul]
    ring
  have p4 : ∫ t in ((crop.growthStages.initial : ℝ) + (crop.growthStages.development : ℝ) +
      (crop.growthStages.midSeason : ℝ))..((crop.growthStages.initial : ℝ) +
      (crop.growthStages.development : ℝ) + (crop.growthStages.midSeason : ℝ) +
      (crop.growthStages.lateSeason : ℝ)), kcCurve crop t =
      ((crop.kcMid : ℝ) + (crop.kcEnd : ℝ)) / 2 * (crop.growthStages.lateSeason : ℝ) := by
    rw [intervalIntegral_congr_eqOn (by linarith) e4, integral_affine_anchored]
    field_simp
    ring
  rw [← intervalIntegral.integral_add_adjacent_intervals (i1.trans i2) (i3.trans i4),
    ← intervalIntegral.integral_add_adjacent_intervals i1 i2,
    ← intervalIntegral.integral_add_adjacent_intervals i3 i4, p1, p2, p3, p4]
  ring

/-- On rational inputs the real-valued curve agrees with the computable
`getKcForDay`. -/
lemma kcCurve_cast (crop : CropData) (d : ℚ) :
    kcCurve crop (d : ℝ) = ((getKcForDay crop d : ℚ) : ℝ) := by
  simp only [kcCurve, getKcForDay, apply_ite (fun q : ℚ => (q : ℝ))]
  refine if_congr (by norm_cast) rfl (if_congr (by norm_cast) rfl
    (if_congr (by norm_cast) (by push_cast; ring) (if_congr (by norm_cast) rfl
      (by push_cast; ring))))

/-- C3: the endpoint-average approximation of
`calculateSeasonalWaterRequirement` is exact for the interpolation model of
`getKcForDay`: the real curve `kcCurve` agrees with `getKcForDay` on
rational days, `averageKc * totalDays` equals the integral of the curve
over `[0, totalDays]`, and `totalWaterMm` is `averageET0` times that
integral. -/
theorem seasonal_water_eq_integral (crop : CropData)
    (h1 : 0 < crop.growthStages.initial) (h2 : 0 < crop.growthStages.development)
    (h3 : 0 < crop.growthStages.midSeason) (h4 : 0 < crop.growthStages.lateSeason)
    (averageET0 : ℚ) :
    (∀ d : ℚ, kcCurve crop (d : ℝ) = ((getKcForDay crop d : ℚ) : ℝ)) ∧
    ((calculateSeasonalWaterRequirement crop averageET0).averageKc : ℝ) *
        ((calculateSeasonalWaterRequirement crop averageET0).totalDays : ℝ) =
      (∫ t in (0:ℝ)..(((calculateSeasonalWaterRequirement crop averageET0).totalDays : ℝ)),
        kcCurve crop t) ∧
    ((calculateSeasonalWaterRequirement crop averageET0).totalWaterMm : ℝ) =
      (averageET0 : ℝ) *
        ∫ t in (0:ℝ)..(((calculateSeasonalWaterRequirement crop averageET0).totalDays : ℝ)),
          kcCurve crop t := by
  have hcast : ((crop.growthStages.initial + crop.growthStages.development +
      crop.growthStages.midSeason + crop.growthStages.lateSeason : ℚ) : ℝ) =
      (crop.growthStages.initial : ℝ) + (crop.growthStages.development : ℝ) +
      (crop.growthStages.midSeason : ℝ) + (crop.growthStages.lateSeason : ℝ) := by
    push_cast
    ring
  have hint := kcCurve_integral crop h1 h2 h3 h4
  have hT0 : (crop.growthStages.initial : ℝ) + (crop.growthStages.development : ℝ) +
      (crop.growthStages.midSeason : ℝ) + (crop.growthStages.lateSeason : ℝ) ≠ 0 := by
    have hI : (0:ℝ) < (crop.growthStages.initial : ℝ) := by exact_mod_cast h1
    have hD : (0:ℝ) < (crop.growthStages.development : ℝ) := by exact_mod_cast h2
    have hM : (0:ℝ) < (crop.growthStages.midSeason : ℝ) := by exact_mod_cast h3
    have hL : (0:ℝ) < (crop.growthStages.lateSeason : ℝ) := by exact_mod_cast h4
    positivity
  refine ⟨kcCurve_cast crop, ?_, ?_⟩
  · simp only [calculateSeasonalWaterRequirement]
    rw [hcast, hint]
    push_cast
    field_simp
    ring
  · simp only [calculateSeasonalWaterRequirement]
    rw [hcast, hint]
    push_cast
    field_simp
    ring

/-- Witness for C3: the general theorem applied to `testCrop` with
`averageET0 = 2`, the agreement conjunct evaluated at day 7. -/
theorem seasonal_water_eq_integral_witness :
    kcCurve testCrop ((7 : ℚ) : ℝ) = ((getKcForDay testCrop 7 : ℚ) : ℝ) ∧
    ((calculateSeasonalWaterRequirement testCrop 2).averageKc : ℝ) *
        ((calculateSeasonalWaterRequirement testCrop 2).totalDays : ℝ) =
      ∫ t in (0:ℝ)..(((calculateSeasonalWaterRequirement testCrop 2).totalDays : ℝ)),
        kcCurve testCrop t :=
  ⟨(seasonal_water_eq_integral testCrop (by norm_num [testCrop]) (by norm_num [testCrop])
      (by norm_num [testCrop]) (by norm_num [testCrop]) 2).1 7,
   (seasonal_water_eq_integral testCrop (by norm_num [testCrop]) (by norm_num [testCrop])
      (by norm_num [testCrop]) (by norm_num [testCrop]) 2).2.1⟩

end EvapoCalc
